import Mathlib

/-!
Shallow embedding of the CIPP-SelfHost authentication gateway
(src/auth-proxy/server.js): data model, request handlers and the
trust-boundary proxy middleware, with theorems about the claims of the
specification.
-/

set_option maxHeartbeats 1000000

namespace AuthProxy

/-! ### JavaScript string and value helpers -/

/-- Model of the JavaScript truthy fallback `a || d` on an optional string:
an absent or empty string falls through to the default. -/
def jsOr (a : Option String) (d : String) : String :=
  match a with
  | some s => if s = "" then d else s
  | none => d

/-- Model of JavaScript `toLowerCase` on the strings this server compares
(email addresses), mapping each character through `Char.toLower`. -/
def jsToLowerCase (s : String) : String :=
  String.mk (s.data.map Char.toLower)

/-- Model of JavaScript `s.startsWith(p)`. -/
def jsStartsWith (s p : String) : Bool :=
  p.data.isPrefixOf s.data

/-- Concatenation of the pieces produced by `f` for each element, used to model
flat mapping over characters and bytes. -/
def listFlat (f : A → List B) : List A → List B
  | [] => []
  | a :: l => f a ++ listFlat f l

/-- First-occurrence string replacement, the semantics of JavaScript
`String.prototype.replace` with a string pattern; used at load for
`BASE_URL = CALLBACK_URL.replace("/auth/callback", "")`. -/
def jsReplaceFirst (s pat repl : String) : String :=
  match s.splitOn pat with
  | [] => s
  | [_] => s
  | x :: rest => x ++ repl ++ String.intercalate pat rest

/-- The path portion of a request url: everything before the first
question mark (the query string is parsed separately by Express). -/
def urlPath (url : String) : String :=
  String.mk (url.data.takeWhile (fun c => !(c = '?')))

/-! ### UTF-8 bytes, base64 and URI encoding -/

/-- UTF-8 encoding of one character as a list of byte values, the model of
Node `Buffer.from(s, "utf8")` at character level. -/
def utf8Bytes (c : Char) : List Nat :=
  let n := c.toNat
  if n < 128 then [n]
  else if n < 2048 then [192 + n / 64 % 32, 128 + n % 64]
  else if n < 65536 then [224 + n / 4096 % 16, 128 + n / 64 % 64, 128 + n % 64]
  else [240 + n / 262144 % 8, 128 + n / 4096 % 64, 128 + n / 64 % 64, 128 + n % 64]

/-- UTF-8 byte sequence of a string. -/
def strBytes (s : String) : List Nat :=
  listFlat utf8Bytes s.data

/-- The base64 alphabet, in index order. -/
def b64Alphabet : List Char :=
  "ABCDEFGHIJKLMNOPQRSTUVWXYZabcdefghijklmnopqrstuvwxyz0123456789+/".data

/-- Character for a six-bit value. -/
def b64Char (n : Nat) : Char :=
  b64Alphabet.getD n '='

/-- Six-bit value of a base64 character. -/
def b64Val (c : Char) : Nat :=
  List.indexOf c b64Alphabet

/-- RFC 4648 base64 encoding of a byte sequence, the model of Node
`buffer.toString("base64")`. -/
def base64Encode : List Nat → List Char
  | a :: b :: c :: rest =>
      b64Char (a / 4) :: b64Char (a % 4 * 16 + b / 16) ::
      b64Char (b % 16 * 4 + c / 64) :: b64Char (c % 64) :: base64Encode rest
  | [a, b] => [b64Char (a / 4), b64Char (a % 4 * 16 + b / 16), b64Char (b % 16 * 4), '=']
  | [a] => [b64Char (a / 4), b64Char (a % 4 * 16), '=', '=']
  | [] => []

/-- RFC 4648 base64 decoding, the left inverse used to state what the
injected identity header decodes to. -/
def base64Decode : List Char → List Nat
  | a :: b :: c :: d :: rest =>
      if c = '=' then [b64Val a * 4 + b64Val b / 16]
      else if d = '=' then
        [b64Val a * 4 + b64Val b / 16, b64Val b % 16 * 16 + b64Val c / 4]
      else
        (b64Val a * 4 + b64Val b / 16) :: (b64Val b % 16 * 16 + b64Val c / 4) ::
        ((b64Val c % 4 * 64 + b64Val d) :: base64Decode rest)
  | _ => []

/-- Lower-case hexadecimal digit. -/
def hexLower (n : Nat) : Char :=
  "0123456789abcdef".data.getD n '0'

/-- Upper-case hexadecimal digit, as produced by `encodeURIComponent`. -/
def hexUpper (n : Nat) : Char :=
  "0123456789ABCDEF".data.getD n '0'

/-- Characters `encodeURIComponent` leaves unescaped. -/
def uriUnreserved (c : Char) : Bool :=
  ('A' ≤ c && c ≤ 'Z') || ('a' ≤ c && c ≤ 'z') || ('0' ≤ c && c ≤ '9') ||
  c = '-' || c = '_' || c = '.' || c = '!' || c = '~' || c = '*' || c = '\'' || c = '(' || c = ')'

/-- Percent-encoding of one byte. -/
def pctByte (b : Nat) : List Char :=
  ['%', hexUpper (b / 16), hexUpper (b % 16)]

/-- Model of JavaScript `encodeURIComponent`: unreserved characters kept,
every other character percent-encoded bytewise from its UTF-8 form. -/
def encodeURIComponent (s : String) : String :=
  String.mk (listFlat
    (fun c => if uriUnreserved c then [c] else listFlat pctByte (utf8Bytes c)) s.data)

/-! ### JSON values and `JSON.stringify` -/

/-- JSON values, the payloads handed to `res.json` and `JSON.stringify`. -/
inductive Json where
  | null : Json
  | jbool : Bool → Json
  | jstr : String → Json
  | jarr : List Json → Json
  | jobj : List (String × Json) → Json

/-- JSON escaping of one character, per `JSON.stringify`. -/
def jsonEscapeChar (c : Char) : List Char :=
  if c = '"' then ['\\', '"']
  else if c = '\\' then ['\\', '\\']
  else if c = '\x08' then ['\\', 'b']
  else if c = '\x0c' then ['\\', 'f']
  else if c = '\n' then ['\\', 'n']
  else if c = '\r' then ['\\', 'r']
  else if c = '\t' then ['\\', 't']
  else if c.toNat < 32 then ['\\', 'u', '0', '0', hexLower (c.toNat / 16), hexLower (c.toNat % 16)]
  else [c]

/-- A JSON string literal with its quotes. -/
def jsonQuote (s : String) : String :=
  "\"" ++ String.mk (listFlat jsonEscapeChar s.data) ++ "\""

/-- Model of `JSON.stringify`: object fields in insertion order, no spaces. -/
def Json.stringify : Json → String
  | Json.null => "null"
  | Json.jbool b => if b then "true" else "false"
  | Json.jstr s => jsonQuote s
  | Json.jarr xs =>
      "[" ++ String.intercalate "," (xs.attach.map (fun x => Json.stringify x.1)) ++ "]"
  | Json.jobj fs =>
      "\x7b" ++ String.intercalate ","
        (fs.attach.map (fun f => jsonQuote f.1.1 ++ ":" ++ Json.stringify f.1.2)) ++ "\x7d"
decreasing_by
  · have := List.sizeOf_lt_of_mem x.2
    simp only [Json.jarr.sizeOf_spec]
    omega
  · have := List.sizeOf_lt_of_mem f.2
    have h2 : sizeOf f.1 = 1 + sizeOf f.1.1 + sizeOf f.1.2 := by
      rcases f.1 with ⟨a, b⟩
      simp
    simp only [Json.jobj.sizeOf_spec]
    omega

/-! ### Data model (server.js lines 13-23, 74-90, session fields) -/

/-- Process configuration loaded at startup. `defaultAdminUpn` is already
lower-cased (line 19); `baseUrl` is derived from the callback url (line 21). -/
structure Config where
  tenantId : String
  baseUrl : String
  defaultAdminUpn : String
deriving DecidableEq

/-- Load of `DEFAULT_ADMIN_UPN = (process.env.DEFAULT_ADMIN_UPN || "").toLowerCase()`. -/
def loadAdminUpn (env : Option String) : String :=
  jsToLowerCase (jsOr env "")

/-- Load of `BASE_URL = CALLBACK_URL.replace("/auth/callback", "")`. -/
def loadBaseUrl (callbackUrl : String) : String :=
  jsReplaceFirst callbackUrl "/auth/callback" ""

/-- The authenticated user stored in the session on successful callback
(lines 140-144). -/
structure AuthUser where
  oid : String
  email : String
  name : String
deriving DecidableEq

/-- Per-browser session state: the user plus the pending login fields
(`oidcNonce`, `oidcState`, `postLoginRedirect`). -/
structure SessionState where
  user : Option AuthUser
  oidcNonce : Option String
  oidcState : Option String
  postLoginRedirect : Option String
deriving DecidableEq

/-- A fresh session with nothing in it. -/
def emptySession : SessionState :=
  SessionState.mk none none none none

/-- Reading `req.session && req.session.user`: `none` stands for a destroyed
or absent session. -/
def sessionUser (sess : Option SessionState) : Option AuthUser :=
  Option.bind sess SessionState.user

/-- The ID-token claims returned by `tokenSet.claims()` that the callback
handler reads (lines 141-143). `sub` is always present in an ID token. -/
structure OidcClaims where
  oid : Option String
  sub : String
  preferred_username : Option String
  email : Option String
  upn : Option String
  name : Option String
deriving DecidableEq

/-- The claim-to-user mapping of lines 140-144, with the JavaScript truthy
fallbacks `claims.oid || claims.sub`,
`claims.preferred_username || claims.email || claims.upn || ""` and
`claims.name || ""`. -/
def userOfClaims (c : OidcClaims) : AuthUser :=
  AuthUser.mk (jsOr c.oid c.sub)
    (jsOr c.preferred_username (jsOr c.email (jsOr c.upn "")))
    (jsOr c.name "")

/-- The wire-format client principal (lines 84-89). -/
structure Principal where
  identityProvider : String
  userId : String
  userDetails : String
  userRoles : List String
deriving DecidableEq

/-- Body of `buildClientPrincipal` for a present user (lines 77-89): the base
roles plus `admin` when a default admin is configured and matches. -/
def corePrincipal (adminUpn : String) (u : AuthUser) : Principal :=
  Principal.mk "aad" u.oid u.email
    (["authenticated", "anonymous"] ++
      (if ¬adminUpn = "" ∧ jsToLowerCase u.email = adminUpn then ["admin"] else []))

/-- `buildClientPrincipal(user)` (lines 74-90): null in, null out. -/
def buildClientPrincipal (adminUpn : String) (u : Option AuthUser) : Option Principal :=
  Option.map (corePrincipal adminUpn) u

/-- JSON form of a principal, field order as in the object literal. -/
def Principal.toJson (p : Principal) : Json :=
  Json.jobj
    [("identityProvider", Json.jstr p.identityProvider),
     ("userId", Json.jstr p.userId),
     ("userDetails", Json.jstr p.userDetails),
     ("userRoles", Json.jarr (p.userRoles.map Json.jstr))]

/-- The `clientPrincipal` JSON value served by `/.auth/me`: the principal
object, or JSON null for an anonymous session. -/
def clientPrincipalJson (adminUpn : String) (u : Option AuthUser) : Json :=
  match buildClientPrincipal adminUpn u with
  | some p => Principal.toJson p
  | none => Json.null

/-- The base64 string injected as `x-ms-client-principal` (lines 209-212). -/
def principalB64 (adminUpn : String) (u : AuthUser) : String :=
  String.mk (base64Encode (strBytes (Json.stringify (Principal.toJson (corePrincipal adminUpn u)))))

/-! ### Headers (Node lower-cases inbound header names before middleware) -/

/-- Request headers as an association list of lower-cased names to values. -/
abbrev Headers : Type := List (String × String)

/-- Header lookup, first match. -/
def hdrGet (k : String) : Headers → Option String
  | [] => none
  | e :: t => if e.fst = k then some e.snd else hdrGet k t

/-- JavaScript `delete req.headers[k]`. -/
def hdrDelete (k : String) : Headers → Headers
  | [] => []
  | e :: t => if e.fst = k then hdrDelete k t else e :: hdrDelete k t

/-- JavaScript `req.headers[k] = v` on a key that was just deleted: the pair
is appended. -/
def hdrSet (k v : String) (h : Headers) : Headers :=
  hdrDelete k h ++ [(k, v)]

/-- The strip step of the `/api` middleware (lines 202-204). -/
def stripSwaHeaders (h : Headers) : Headers :=
  hdrDelete "x-ms-client-principal-idp"
    (hdrDelete "x-ms-client-principal-name"
      (hdrDelete "x-ms-client-principal" h))

/-- The inject step of the `/api` middleware for an authenticated session
(lines 214-216), in source order. -/
def injectSwaHeaders (adminUpn : String) (u : AuthUser) (h : Headers) : Headers :=
  hdrSet "x-ms-client-principal-idp" "aad"
    (hdrSet "x-ms-client-principal-name" u.email
      (hdrSet "x-ms-client-principal" (principalB64 adminUpn u) h))

/-- The whole header transformation of the `/api` middleware: strip
unconditionally, then inject only when a session user exists (lines 200-217). -/
def apiHeaders (adminUpn : String) (u : Option AuthUser) (h : Headers) : Headers :=
  match u with
  | some user => injectSwaHeaders adminUpn user (stripSwaHeaders h)
  | none => stripSwaHeaders h

/-! ### Responses and request routing -/

/-- A response body: JSON from `res.json`, text from `res.send`, or empty. -/
inductive RespBody where
  | jsonOf : Json → RespBody
  | textOf : String → RespBody
  | empty : RespBody

/-- An HTTP response as produced by the handlers. -/
structure HttpResponse where
  status : Nat
  body : RespBody
  location : Option String

/-- `res.json(j)`: status 200 with a JSON body. -/
def jsonResp (j : Json) : HttpResponse :=
  HttpResponse.mk 200 (RespBody.jsonOf j) none

/-- `res.status(code).send(text)`. -/
def textResp (code : Nat) (s : String) : HttpResponse :=
  HttpResponse.mk code (RespBody.textOf s) none

/-- `res.redirect(url)`: status 302 with a Location. -/
def redirectResp (url : String) : HttpResponse :=
  HttpResponse.mk 302 RespBody.empty (some url)

/-- Outcome of the gateway for one request: answered directly (with the
session left behind), forwarded to the API backend, or passed to the static
file layer and SPA fallback. -/
inductive Outcome where
  | respond : Option SessionState → HttpResponse → Outcome
  | forward : Option SessionState → String → Headers → Outcome
  | staticOrSpa : Outcome

/-- Results of the OIDC library calls a request may perform: readiness of the
discovered client, the generated nonce and state, the built authorization
url, and the outcome of the callback token exchange with nonce and state
verification (`oidcClient.callback`, which throws on mismatch). -/
structure OidcFx where
  ready : Bool
  nonce : String
  state : String
  authUrl : String
  exchange : Except String OidcClaims

/-- The query parameters the handlers read. -/
structure Query where
  post_login_redirect_uri : Option String
  post_logout_redirect_uri : Option String
  post_logout_redirect_url : Option String

/-- An inbound HTTP request. -/
structure Request where
  method : String
  url : String
  headers : Headers

/-! ### Handlers (server.js lines 51-239) -/

/-- `GET /health` response (lines 51-53). -/
def healthRes (ready : Bool) : HttpResponse :=
  jsonResp (Json.jobj [("status", Json.jstr "ok"), ("oidc", Json.jbool ready)])

/-- `GET /.auth/login/aad` (lines 103-123). -/
def loginRes (fx : OidcFx) (q : Query) (sess : Option SessionState) :
    Option SessionState × HttpResponse :=
  if fx.ready = false then (sess, textResp 503 "Auth service not ready")
  else
    let s := sess.getD emptySession
    (some (SessionState.mk s.user (some fx.nonce) (some fx.state)
        (some (jsOr q.post_login_redirect_uri "/"))),
      redirectResp fx.authUrl)

/-- `GET /auth/callback` (lines 126-158). On a successful exchange the user
is stored and the pending login fields are deleted; when the exchange throws,
the catch block only sends the generic failure text. -/
def callbackRes (fx : OidcFx) (sess : Option SessionState) :
    Option SessionState × HttpResponse :=
  if fx.ready = false then (sess, textResp 503 "Auth service not ready")
  else
    match fx.exchange with
    | Except.ok claims =>
        let s0 := sess.getD emptySession
        let s1 := SessionState.mk (some (userOfClaims claims)) none none s0.postLoginRedirect
        let target := jsOr s1.postLoginRedirect "/"
        (some (SessionState.mk s1.user none none none), redirectResp target)
    | Except.error _ => (sess, textResp 500 "Authentication failed. Please try again.")

/-- The post-logout parameter with its fallbacks (lines 162-163). -/
def postLogoutParam (q : Query) : String :=
  jsOr q.post_logout_redirect_uri (jsOr q.post_logout_redirect_url "/")

/-- Resolution of the post-logout redirect to a full url (lines 167-169). -/
def fullLogoutRedirect (cfg : Config) (q : Query) : String :=
  let p := postLogoutParam q
  if jsStartsWith p "http" then p else cfg.baseUrl ++ p

/-- The provider end-session url (lines 171-173). -/
def logoutUrl (cfg : Config) (full : String) : String :=
  "https://login.microsoftonline.com/" ++ cfg.tenantId ++
    "/oauth2/v2.0/logout?post_logout_redirect_uri=" ++ encodeURIComponent full

/-- `GET /.auth/logout` (lines 161-176): unconditional destroy, then the
provider redirect. -/
def logoutRes (cfg : Config) (q : Query) : Option SessionState × HttpResponse :=
  (none, redirectResp (logoutUrl cfg (fullLogoutRedirect cfg q)))

/-- Whether a path is matched by the Express mount `app.use("/api", ...)`. -/
def apiMatch (p : String) : Bool :=
  p == "/api" || jsStartsWith p "/api/"

/-- Modelled from the Express router: when the mount `"/api"` matches, the
mount prefix is cut from `req.url` and a leading slash is restored if the
remainder does not start with one. -/
def expressStripApi (url : String) : String :=
  let rest := String.mk (url.data.drop 4)
  if jsStartsWith rest "/" then rest else "/" ++ rest

/-- The proxy `pathRewrite: (p) => "/api" + p` (line 228). -/
def apiPathRewrite (p : String) : String :=
  "/api" ++ p

/-- The url the backend receives: mount strip composed with the rewrite. -/
def apiForwardUrl (url : String) : String :=
  apiPathRewrite (expressStripApi url)

/-- Modelled from the Express router: a route registered with `app.get`
answers both GET and HEAD requests — when a route has no HEAD handler the
router dispatches HEAD to the GET handler. -/
abbrev getLikeMethod (m : String) : Prop :=
  m = "GET" ∨ m = "HEAD"

/-- The gateway: one request in, one outcome out, following the registration
order of server.js (health, auth endpoints, the `/api/me` interceptor, the
`/api` proxy, then the static layer). Routes registered with `app.get` match
GET and HEAD; the `app.use` mount matches every method. -/
def gateway (cfg : Config) (fx : OidcFx) (req : Request) (q : Query)
    (sess : Option SessionState) : Outcome :=
  let p := urlPath req.url
  if getLikeMethod req.method ∧ p = "/health" then
    Outcome.respond sess (healthRes fx.ready)
  else if getLikeMethod req.method ∧ p = "/.auth/me" then
    Outcome.respond sess
      (jsonResp (Json.jobj [("clientPrincipal", clientPrincipalJson cfg.defaultAdminUpn (sessionUser sess))]))
  else if getLikeMethod req.method ∧ p = "/.auth/login/aad" then
    Outcome.respond (loginRes fx q sess).1 (loginRes fx q sess).2
  else if getLikeMethod req.method ∧ p = "/auth/callback" then
    Outcome.respond (callbackRes fx sess).1 (callbackRes fx sess).2
  else if getLikeMethod req.method ∧ p = "/.auth/logout" then
    Outcome.respond (logoutRes cfg q).1 (logoutRes cfg q).2
  else if getLikeMethod req.method ∧ p = "/api/me" ∧ sessionUser sess = none then
    Outcome.respond sess (jsonResp (Json.jobj [("clientPrincipal", Json.null)]))
  else if apiMatch p then
    Outcome.forward sess (apiForwardUrl req.url)
      (apiHeaders cfg.defaultAdminUpn (sessionUser sess) req.headers)
  else Outcome.staticOrSpa

/-- The forwarded header list of an outcome, when it forwards. -/
def forwardedHeaders : Outcome → Option Headers
  | Outcome.forward _ _ h => some h
  | _ => none

/-- The identity-header triple of a forwarded request. -/
def forwardedIdHeaders (o : Outcome) : Option (Option String × Option String × Option String) :=
  Option.map
    (fun h => (hdrGet "x-ms-client-principal" h,
      hdrGet "x-ms-client-principal-name" h,
      hdrGet "x-ms-client-principal-idp" h))
    (forwardedHeaders o)

/-! ### Helper lemmas -/

theorem mem_listFlat {A B : Type} {f : A → List B} {x : B} :
    ∀ {l : List A}, x ∈ listFlat f l → ∃ a ∈ l, x ∈ f a := by
  intro l
  induction l with
  | nil => intro hx; exact absurd hx (by simp [listFlat])
  | cons a t ih =>
    intro hx
    rw [listFlat, List.mem_append] at hx
    rcases hx with hx | hx
    · exact ⟨a, by simp, hx⟩
    · obtain ⟨b, hb, hfb⟩ := ih hx
      exact ⟨b, by simp [hb], hfb⟩

theorem isPrefixOf_iff_exists {p l : List Char} :
    p.isPrefixOf l = true ↔ ∃ t, l = p ++ t := by
  induction p generalizing l with
  | nil => simp [List.isPrefixOf]
  | cons a as ih =>
    cases l with
    | nil => simp [List.isPrefixOf]
    | cons b bs =>
      simp only [List.isPrefixOf, Bool.and_eq_true, beq_iff_eq, ih, List.cons_append,
        List.cons.injEq]
      constructor
      · rintro ⟨rfl, t, rfl⟩
        exact ⟨t, rfl, rfl⟩
      · rintro ⟨t, rfl, rfl⟩
        exact ⟨rfl, t, rfl⟩

theorem hdrGet_hdrDelete (k k2 : String) (h : Headers) :
    hdrGet k (hdrDelete k2 h) = if k = k2 then none else hdrGet k h := by
  induction h with
  | nil => simp [hdrGet, hdrDelete]
  | cons e t ih =>
    by_cases he : e.fst = k2
    · rw [hdrDelete, if_pos he, ih]
      by_cases hk : k = k2
      · rw [if_pos hk, if_pos hk]
      · rw [if_neg hk, if_neg hk, hdrGet, if_neg (by rw [he]; exact fun hh => hk hh.symm)]
    · rw [hdrDelete, if_neg he, hdrGet, ih]
      by_cases hek : e.fst = k
      · rw [if_pos hek]
        have hk : ¬k = k2 := by rw [← hek]; exact he
        rw [if_neg hk, hdrGet, if_pos hek]
      · rw [if_neg hek]
        by_cases hk : k = k2
        · rw [if_pos hk, if_pos hk]
        · rw [if_neg hk, if_neg hk, hdrGet, if_neg hek]

theorem hdrGet_append (k : String) (h1 h2 : Headers) :
    hdrGet k (h1 ++ h2) =
      match hdrGet k h1 with
      | some v => some v
      | none => hdrGet k h2 := by
  induction h1 with
  | nil => simp [hdrGet]
  | cons e t ih =>
    by_cases he : e.fst = k
    · rw [List.cons_append, hdrGet, if_pos he, hdrGet, if_pos he]
    · rw [List.cons_append, hdrGet, if_neg he, hdrGet, if_neg he, ih]

theorem hdrGet_hdrSet_self (k v : String) (h : Headers) :
    hdrGet k (hdrSet k v h) = some v := by
  rw [hdrSet, hdrGet_append, hdrGet_hdrDelete, if_pos rfl]
  simp [hdrGet]

theorem hdrGet_hdrSet_ne (k k2 v : String) (h : Headers) (hne : ¬k = k2) :
    hdrGet k (hdrSet k2 v h) = hdrGet k h := by
  rw [hdrSet, hdrGet_append, hdrGet_hdrDelete, if_neg hne]
  cases hg : hdrGet k h with
  | some w => rfl
  | none =>
    simp only []
    rw [hdrGet, if_neg (fun hh => hne hh.symm), hdrGet]

theorem stripSwaHeaders_get (k : String) (h : Headers) :
    hdrGet k (stripSwaHeaders h) =
      if k = "x-ms-client-principal" ∨ k = "x-ms-client-principal-name" ∨
          k = "x-ms-client-principal-idp" then none
      else hdrGet k h := by
  rw [stripSwaHeaders, hdrGet_hdrDelete, hdrGet_hdrDelete, hdrGet_hdrDelete]
  by_cases h1 : k = "x-ms-client-principal-idp"
  · rw [if_pos h1, if_pos (by right; right; exact h1)]
  · rw [if_neg h1]
    by_cases h2 : k = "x-ms-client-principal-name"
    · rw [if_pos h2, if_pos (by right; left; exact h2)]
    · rw [if_neg h2]
      by_cases h3 : k = "x-ms-client-principal"
      · rw [if_pos h3, if_pos (by left; exact h3)]
      · rw [if_neg h3, if_neg (by rintro (hh | hh | hh) <;> [exact h3 hh; exact h2 hh; exact h1 hh])]

theorem injectSwaHeaders_get_principal (a : String) (u : AuthUser) (h : Headers) :
    hdrGet "x-ms-client-principal" (injectSwaHeaders a u h) = some (principalB64 a u) := by
  rw [injectSwaHeaders, hdrGet_hdrSet_ne _ _ _ _ (by decide),
    hdrGet_hdrSet_ne _ _ _ _ (by decide), hdrGet_hdrSet_self]

theorem injectSwaHeaders_get_name (a : String) (u : AuthUser) (h : Headers) :
    hdrGet "x-ms-client-principal-name" (injectSwaHeaders a u h) = some u.email := by
  rw [injectSwaHeaders, hdrGet_hdrSet_ne _ _ _ _ (by decide), hdrGet_hdrSet_self]

theorem injectSwaHeaders_get_idp (a : String) (u : AuthUser) (h : Headers) :
    hdrGet "x-ms-client-principal-idp" (injectSwaHeaders a u h) = some "aad" := by
  rw [injectSwaHeaders, hdrGet_hdrSet_self]

theorem injectSwaHeaders_get_other (a k : String) (u : AuthUser) (h : Headers)
    (hk : ¬(k = "x-ms-client-principal" ∨ k = "x-ms-client-principal-name" ∨
      k = "x-ms-client-principal-idp")) :
    hdrGet k (injectSwaHeaders a u h) = hdrGet k h := by
  rw [injectSwaHeaders,
    hdrGet_hdrSet_ne _ _ _ _ (fun hh => hk (Or.inr (Or.inr hh))),
    hdrGet_hdrSet_ne _ _ _ _ (fun hh => hk (Or.inr (Or.inl hh))),
    hdrGet_hdrSet_ne _ _ _ _ (fun hh => hk (Or.inl hh))]

theorem b64Val_b64Char : ∀ n, n < 64 → b64Val (b64Char n) = n := by decide

theorem b64Char_ne_pad : ∀ n, n < 64 → ¬b64Char n = '=' := by decide

theorem base64_roundtrip :
    ∀ (l : List Nat), (∀ x ∈ l, x < 256) → base64Decode (base64Encode l) = l
  | [], _ => rfl
  | [a], h => by
    have ha : a < 256 := h a (by simp)
    rw [base64Encode, base64Decode, if_pos rfl,
      b64Val_b64Char _ (by omega), b64Val_b64Char _ (by omega)]
    have e1 : a / 4 * 4 + a % 4 * 16 / 16 = a := by omega
    rw [e1]
  | [a, b], h => by
    have ha : a < 256 := h a (by simp)
    have hb : b < 256 := h b (by simp)
    rw [base64Encode, base64Decode, if_neg (b64Char_ne_pad _ (by omega)), if_pos rfl,
      b64Val_b64Char _ (by omega), b64Val_b64Char _ (by omega), b64Val_b64Char _ (by omega)]
    have e1 : a / 4 * 4 + (a % 4 * 16 + b / 16) / 16 = a := by omega
    have e2 : (a % 4 * 16 + b / 16) % 16 * 16 + b % 16 * 4 / 4 = b := by omega
    rw [e1, e2]
  | a :: b :: c :: rest, h => by
    have ha : a < 256 := h a (by simp)
    have hb : b < 256 := h b (by simp)
    have hc : c < 256 := h c (by simp)
    have ih := base64_roundtrip rest (fun x hx => h x (by simp [hx]))
    rw [base64Encode, base64Decode, if_neg (b64Char_ne_pad _ (by omega)),
      if_neg (b64Char_ne_pad _ (by omega)),
      b64Val_b64Char _ (by omega), b64Val_b64Char _ (by omega),
      b64Val_b64Char _ (by omega), b64Val_b64Char _ (by omega), ih]
    have e1 : a / 4 * 4 + (a % 4 * 16 + b / 16) / 16 = a := by omega
    have e2 : (a % 4 * 16 + b / 16) % 16 * 16 + (b % 16 * 4 + c / 64) / 4 = b := by omega
    have e3 : (b % 16 * 4 + c / 64) % 4 * 64 + c % 64 = c := by omega
    rw [e1, e2, e3]

theorem utf8Bytes_lt (c : Char) : ∀ x ∈ utf8Bytes c, x < 256 := by
  intro x hx
  simp only [utf8Bytes] at hx
  split_ifs at hx with h1 h2 h3 <;> simp only [List.mem_cons, List.not_mem_nil, or_false] at hx <;>
    omega

theorem strBytes_lt (s : String) : ∀ x ∈ strBytes s, x < 256 := by
  intro x hx
  obtain ⟨c, _, hc⟩ := mem_listFlat hx
  exact utf8Bytes_lt c x hc

theorem principalB64_decodes (a : String) (u : AuthUser) :
    base64Decode (principalB64 a u).data =
      strBytes (Json.stringify (Principal.toJson (corePrincipal a u))) := by
  rw [principalB64]
  exact base64_roundtrip _ (strBytes_lt _)

theorem apiMatch_ne_routes {p : String} (h : apiMatch p = true) :
    ¬p = "/health" ∧ ¬p = "/.auth/me" ∧ ¬p = "/.auth/login/aad" ∧
      ¬p = "/auth/callback" ∧ ¬p = "/.auth/logout" := by
  refine ⟨?_, ?_, ?_, ?_, ?_⟩ <;> intro he <;> rw [he] at h <;> exact absurd h (by decide)

theorem gateway_api_forward (cfg : Config) (fx : OidcFx) (m url : String) (h : Headers)
    (q : Query) (sess : Option SessionState)
    (hapi : apiMatch (urlPath url) = true)
    (hni : ¬(getLikeMethod m ∧ urlPath url = "/api/me" ∧ sessionUser sess = none)) :
    gateway cfg fx (Request.mk m url h) q sess =
      Outcome.forward sess (apiForwardUrl url)
        (apiHeaders cfg.defaultAdminUpn (sessionUser sess) h) := by
  obtain ⟨h1, h2, h3, h4, h5⟩ := apiMatch_ne_routes hapi
  rw [gateway]
  simp only []
  rw [if_neg (fun hc => h1 hc.2), if_neg (fun hc => h2 hc.2), if_neg (fun hc => h3 hc.2),
    if_neg (fun hc => h4 hc.2), if_neg (fun hc => h5 hc.2), if_neg hni, if_pos hapi]

theorem apiHeaders_id_triple (a : String) (u : Option AuthUser) (h : Headers) :
    (hdrGet "x-ms-client-principal" (apiHeaders a u h),
      hdrGet "x-ms-client-principal-name" (apiHeaders a u h),
      hdrGet "x-ms-client-principal-idp" (apiHeaders a u h)) =
      match u with
      | some user => (some (principalB64 a user), some user.email, some "aad")
      | none => (none, none, none) := by
  cases u with
  | some user =>
    rw [apiHeaders]
    rw [injectSwaHeaders_get_principal, injectSwaHeaders_get_name, injectSwaHeaders_get_idp]
  | none =>
    rw [apiHeaders]
    rw [stripSwaHeaders_get, if_pos (by left; rfl), stripSwaHeaders_get,
      if_pos (by right; left; rfl), stripSwaHeaders_get, if_pos (by right; right; rfl)]

theorem gateway_api_me (cfg : Config) (fx : OidcFx) (m url : String) (h : Headers)
    (q : Query) (sess : Option SessionState)
    (hme : getLikeMethod m ∧ urlPath url = "/api/me" ∧ sessionUser sess = none) :
    gateway cfg fx (Request.mk m url h) q sess =
      Outcome.respond sess (jsonResp (Json.jobj [("clientPrincipal", Json.null)])) := by
  obtain ⟨hm, hp, hu⟩ := hme
  have n1 : ¬urlPath url = "/health" := by rw [hp]; decide
  have n2 : ¬urlPath url = "/.auth/me" := by rw [hp]; decide
  have n3 : ¬urlPath url = "/.auth/login/aad" := by rw [hp]; decide
  have n4 : ¬urlPath url = "/auth/callback" := by rw [hp]; decide
  have n5 : ¬urlPath url = "/.auth/logout" := by rw [hp]; decide
  rw [gateway]
  simp only []
  rw [if_neg (fun hc => n1 hc.2), if_neg (fun hc => n2 hc.2), if_neg (fun hc => n3 hc.2),
    if_neg (fun hc => n4 hc.2), if_neg (fun hc => n5 hc.2), if_pos ⟨hm, hp, hu⟩]

/-- C1: on every request under the `/api` mount the gateway strips the three
inbound identity headers before looking at authentication state: whenever an
unauthenticated request is forwarded, the forwarded headers contain none of
`x-ms-client-principal`, `x-ms-client-principal-name` and
`x-ms-client-principal-idp`, and two inbound requests differing only in those
attacker-supplied headers are forwarded with identical identity-header sets. -/
theorem c1_api_identity_headers_stripped (cfg : Config) (fx : OidcFx) (m url : String)
    (h h1 h2 : Headers) (q : Query) (sess : Option SessionState) (hdrs : Headers)
    (hapi : apiMatch (urlPath url) = true)
    (husr : sessionUser sess = none)
    (hfwd : forwardedHeaders (gateway cfg fx (Request.mk m url h) q sess) = some hdrs) :
    hdrGet "x-ms-client-principal" hdrs = none ∧
    hdrGet "x-ms-client-principal-name" hdrs = none ∧
    hdrGet "x-ms-client-principal-idp" hdrs = none ∧
    forwardedIdHeaders (gateway cfg fx (Request.mk m url h1) q sess) =
      forwardedIdHeaders (gateway cfg fx (Request.mk m url h2) q sess) := by
  by_cases hni : getLikeMethod m ∧ urlPath url = "/api/me" ∧ sessionUser sess = none
  · rw [gateway_api_me cfg fx m url h q sess hni] at hfwd
    simp [forwardedHeaders] at hfwd
  · rw [gateway_api_forward cfg fx m url h q sess hapi hni] at hfwd
    simp only [forwardedHeaders] at hfwd
    have hh : hdrs = apiHeaders cfg.defaultAdminUpn (sessionUser sess) h :=
      (Option.some.injEq _ _ ▸ hfwd).symm
    have htriple := apiHeaders_id_triple cfg.defaultAdminUpn (sessionUser sess) h
    rw [husr] at htriple
    rw [hh, husr]
    have g1 : hdrGet "x-ms-client-principal" (apiHeaders cfg.defaultAdminUpn none h) = none :=
      congrArg (fun t => t.1) htriple
    have g2 : hdrGet "x-ms-client-principal-name" (apiHeaders cfg.defaultAdminUpn none h) = none :=
      congrArg (fun t => t.2.1) htriple
    have g3 : hdrGet "x-ms-client-principal-idp" (apiHeaders cfg.defaultAdminUpn none h) = none :=
      congrArg (fun t => t.2.2) htriple
    refine ⟨g1, g2, g3, ?_⟩
    rw [gateway_api_forward cfg fx m url h1 q sess hapi hni,
      gateway_api_forward cfg fx m url h2 q sess hapi hni]
    rw [forwardedIdHeaders, forwardedIdHeaders, forwardedHeaders, forwardedHeaders]
    simp only [Option.map_some']
    rw [apiHeaders_id_triple, apiHeaders_id_triple]

theorem jsOr_eq_getD {o : Option String} {d : String} (h : ¬o = some "") :
    jsOr o d = o.getD d := by
  cases o with
  | none => rfl
  | some s =>
    rw [jsOr, Option.getD_some, if_neg (fun hh => h (by rw [hh]))]

/-- C3: the principal built for a session user carries the role `admin`
exactly when a default-admin address is configured (loaded nonempty) and the
lower-cased email equals the loaded address; with no configured address no
user is elevated, whatever its email; the address is lower-cased at load. -/
theorem c3_admin_role_iff (env : Option String) (u : AuthUser) :
    ("admin" ∈ (corePrincipal (loadAdminUpn env) u).userRoles ↔
      (¬loadAdminUpn env = "" ∧ jsToLowerCase u.email = loadAdminUpn env)) ∧
    ¬"admin" ∈ (corePrincipal (loadAdminUpn none) u).userRoles ∧
    loadAdminUpn env = jsToLowerCase (jsOr env "") := by
  refine ⟨?_, ?_, rfl⟩
  · rw [corePrincipal]
    simp only [List.mem_append, List.mem_cons, List.not_mem_nil]
    by_cases hcond : ¬loadAdminUpn env = "" ∧ jsToLowerCase u.email = loadAdminUpn env
    · rw [if_pos hcond]
      simp [hcond]
    · rw [if_neg hcond]
      simp [hcond]
  · rw [show loadAdminUpn none = "" from rfl, corePrincipal]
    simp

/-- C5: with no authenticated user in the session, `GET /.auth/me` and
`GET /api/me` are both answered directly by the gateway with status 200 and
the JSON body with a null `clientPrincipal`, never an error status. -/
theorem c5_unauthenticated_me_endpoints (cfg : Config) (fx : OidcFx) (q : Query)
    (sess : Option SessionState) (h : Headers)
    (husr : sessionUser sess = none) :
    gateway cfg fx (Request.mk "GET" "/.auth/me" h) q sess =
      Outcome.respond sess (jsonResp (Json.jobj [("clientPrincipal", Json.null)])) ∧
    gateway cfg fx (Request.mk "GET" "/api/me" h) q sess =
      Outcome.respond sess (jsonResp (Json.jobj [("clientPrincipal", Json.null)])) ∧
    (jsonResp (Json.jobj [("clientPrincipal", Json.null)])).status = 200 := by
  refine ⟨?_, gateway_api_me cfg fx _ _ h q sess ⟨Or.inl rfl, by decide, husr⟩, rfl⟩
  rw [gateway]
  simp only []
  rw [if_neg (by decide), if_pos (by decide), husr]
  rw [show clientPrincipalJson cfg.defaultAdminUpn none = Json.null from rfl]

/-- C10 (counterexample): not every non-GET request to `/api/me` is
forwarded — the Express router dispatches HEAD to the GET handler, so an
unauthenticated `HEAD /api/me` is intercepted and answered directly with the
null-principal response, and nothing is forwarded to the backend. -/
theorem c10_counterexample_head_api_me :
    gateway (Config.mk "t1" "https://cipp.example.com" "")
      (OidcFx.mk true "n" "s" "a" (Except.error "e"))
      (Request.mk "HEAD" "/api/me" []) (Query.mk none none none) none =
      Outcome.respond none (jsonResp (Json.jobj [("clientPrincipal", Json.null)])) ∧
    forwardedHeaders (gateway (Config.mk "t1" "https://cipp.example.com" "")
      (OidcFx.mk true "n" "s" "a" (Except.error "e"))
      (Request.mk "HEAD" "/api/me" []) (Query.mk none none none) none) = none := by
  have hg := gateway_api_me (Config.mk "t1" "https://cipp.example.com" "")
    (OidcFx.mk true "n" "s" "a" (Except.error "e")) "HEAD" "/api/me" []
    (Query.mk none none none) none ⟨Or.inr rfl, by decide, rfl⟩
  exact ⟨hg, by rw [hg]; rfl⟩

/-- C10 (amended): the `/api/me` interceptor answers GET and HEAD requests
(HEAD reaches the GET handler through the Express router); for every other
method and no session user, `/api/me` is not answered with the null
principal but forwarded through the proxy with the identity headers
stripped and none injected. -/
theorem c10_api_me_non_get_head_forwarded (cfg : Config) (fx : OidcFx) (m : String)
    (h : Headers) (q : Query) (sess : Option SessionState)
    (hm : ¬getLikeMethod m) (husr : sessionUser sess = none) :
    gateway cfg fx (Request.mk m "/api/me" h) q sess =
      Outcome.forward sess (apiForwardUrl "/api/me") (stripSwaHeaders h) ∧
    apiForwardUrl "/api/me" = "/api/me" ∧
    hdrGet "x-ms-client-principal" (stripSwaHeaders h) = none ∧
    hdrGet "x-ms-client-principal-name" (stripSwaHeaders h) = none ∧
    hdrGet "x-ms-client-principal-idp" (stripSwaHeaders h) = none := by
  have hg := gateway_api_forward cfg fx m "/api/me" h q sess (by decide)
    (fun hc => hm hc.1)
  rw [husr] at hg
  rw [show apiHeaders cfg.defaultAdminUpn none h = stripSwaHeaders h from rfl] at hg
  refine ⟨hg, by decide, ?_, ?_, ?_⟩
  · rw [stripSwaHeaders_get, if_pos (by left; rfl)]
  · rw [stripSwaHeaders_get, if_pos (by right; left; rfl)]
  · rw [stripSwaHeaders_get, if_pos (by right; right; rfl)]

/-- C6: `GET /.auth/logout` always destroys the session and redirects (302)
to the provider end-session endpoint; a relative `post_logout_redirect_uri`
is resolved against the configured base url before being percent-encoded
into that endpoint; the outcome does not depend on the session, so a second
logout with no session redirects identically. -/
theorem c6_logout_destroys_and_redirects (cfg : Config) (fx : OidcFx) (q : Query)
    (sess : Option SessionState) (h : Headers) (pstr : String)
    (hq : q.post_logout_redirect_uri = some pstr)
    (hrel : jsStartsWith pstr "/" = true) :
    gateway cfg fx (Request.mk "GET" "/.auth/logout" h) q sess =
      Outcome.respond none (redirectResp (logoutUrl cfg (fullLogoutRedirect cfg q))) ∧
    gateway cfg fx (Request.mk "GET" "/.auth/logout" h) q sess =
      gateway cfg fx (Request.mk "GET" "/.auth/logout" h) q none ∧
    (redirectResp (logoutUrl cfg (fullLogoutRedirect cfg q))).status = 302 ∧
    fullLogoutRedirect cfg q = cfg.baseUrl ++ pstr ∧
    (redirectResp (logoutUrl cfg (fullLogoutRedirect cfg q))).location =
      some ("https://login.microsoftonline.com/" ++ cfg.tenantId ++
        "/oauth2/v2.0/logout?post_logout_redirect_uri=" ++
        encodeURIComponent (cfg.baseUrl ++ pstr)) := by
  have hne : ¬pstr = "" := by
    intro hh
    rw [hh] at hrel
    exact absurd hrel (by decide)
  have hparam : postLogoutParam q = pstr := by
    rw [postLogoutParam, hq, jsOr, if_neg hne]
  have hnohttp : jsStartsWith pstr "http" = false := by
    rw [jsStartsWith] at hrel ⊢
    rw [show "/".data = ['/'] from rfl] at hrel
    obtain ⟨t, ht⟩ := isPrefixOf_iff_exists.mp hrel
    rw [show "http".data = ['h', 't', 't', 'p'] from rfl, ht]
    rw [show (['/'] ++ t) = '/' :: t from rfl]
    rw [show List.isPrefixOf ['h', 't', 't', 'p'] ('/' :: t) =
      (('h' == '/') && List.isPrefixOf ['t', 't', 'p'] t) from rfl]
    rw [show (('h' : Char) == '/') = false from rfl]
    exact Bool.false_and _
  have hfull : fullLogoutRedirect cfg q = cfg.baseUrl ++ pstr := by
    rw [fullLogoutRedirect]
    simp only [hparam]
    rw [if_neg (by rw [hnohttp]; exact Bool.false_ne_true)]
  have hroute : gateway cfg fx (Request.mk "GET" "/.auth/logout" h) q sess =
      Outcome.respond none (redirectResp (logoutUrl cfg (fullLogoutRedirect cfg q))) := by
    rw [gateway]
    simp only []
    rw [if_neg (by decide), if_neg (by decide), if_neg (by decide), if_neg (by decide),
      if_pos (by decide), logoutRes]
  have hroute2 : gateway cfg fx (Request.mk "GET" "/.auth/logout" h) q none =
      Outcome.respond none (redirectResp (logoutUrl cfg (fullLogoutRedirect cfg q))) := by
    rw [gateway]
    simp only []
    rw [if_neg (by decide), if_neg (by decide), if_neg (by decide), if_neg (by decide),
      if_pos (by decide), logoutRes]
  refine ⟨hroute, by rw [hroute, hroute2], rfl, hfull, ?_⟩
  rw [hfull, logoutUrl]
  rfl

/-- C7: with OIDC initialization failed (client absent), login and callback
answer 503 with the not-ready text, `/health` reports `oidc:false` with
status 200 (and `oidc:true` once ready), while `/api` requests are still
forwarded and unmatched paths still reach the static layer. -/
theorem c7_degraded_mode_behavior (cfg : Config) (fx : OidcFx) (q : Query)
    (sess : Option SessionState) (h : Headers) (m url m2 url2 : String) (h2 : Headers)
    (hnr : fx.ready = false)
    (hapi : apiMatch (urlPath url) = true)
    (hni : ¬(getLikeMethod m ∧ urlPath url = "/api/me" ∧ sessionUser sess = none))
    (hnapi : apiMatch (urlPath url2) = false)
    (hroutes : ¬urlPath url2 = "/health" ∧ ¬urlPath url2 = "/.auth/me" ∧
      ¬urlPath url2 = "/.auth/login/aad" ∧ ¬urlPath url2 = "/auth/callback" ∧
      ¬urlPath url2 = "/.auth/logout") :
    gateway cfg fx (Request.mk "GET" "/.auth/login/aad" h) q sess =
      Outcome.respond sess (textResp 503 "Auth service not ready") ∧
    gateway cfg fx (Request.mk "GET" "/auth/callback" h) q sess =
      Outcome.respond sess (textResp 503 "Auth service not ready") ∧
    gateway cfg fx (Request.mk "GET" "/health" h) q sess =
      Outcome.respond sess (healthRes false) ∧
    healthRes false = jsonResp (Json.jobj [("status", Json.jstr "ok"), ("oidc", Json.jbool false)]) ∧
    healthRes true = jsonResp (Json.jobj [("status", Json.jstr "ok"), ("oidc", Json.jbool true)]) ∧
    gateway cfg fx (Request.mk m url h) q sess =
      Outcome.forward sess (apiForwardUrl url)
        (apiHeaders cfg.defaultAdminUpn (sessionUser sess) h) ∧
    gateway cfg fx (Request.mk m2 url2 h2) q sess = Outcome.staticOrSpa := by
  obtain ⟨n1, n2, n3, n4, n5⟩ := hroutes
  refine ⟨?_, ?_, ?_, rfl, rfl, gateway_api_forward cfg fx m url h q sess hapi hni, ?_⟩
  · rw [gateway]
    simp only []
    rw [if_neg (by decide), if_neg (by decide), if_pos (by decide), loginRes, if_pos hnr]
  · rw [gateway]
    simp only []
    rw [if_neg (by decide), if_neg (by decide), if_neg (by decide), if_pos (by decide),
      callbackRes, if_pos hnr]
  · rw [gateway]
    simp only []
    rw [if_pos (by decide), hnr]
  · rw [gateway]
    simp only []
    rw [if_neg (fun hc => n1 hc.2), if_neg (fun hc => n2 hc.2), if_neg (fun hc => n3 hc.2),
      if_neg (fun hc => n4 hc.2), if_neg (fun hc => n5 hc.2),
      if_neg (fun hc => by rw [hc.2.1] at hnapi; exact absurd hnapi (by decide)),
      if_neg (fun hc => by rw [hc] at hnapi; exact Bool.noConfusion hnapi)]

/-- C8: on a successful callback exchange the stored user is built from the
claims with the fallback precedence preferred_username, else email, else
upn, else empty (and oid else sub for the subject, name else empty for the
display name), and the pending login fields are cleared. -/
theorem c8_claim_fallback_precedence (fx : OidcFx) (sess : Option SessionState)
    (c : OidcClaims)
    (hready : fx.ready = true)
    (hex : fx.exchange = Except.ok c)
    (hp : ¬c.preferred_username = some "")
    (he : ¬c.email = some "")
    (hu : ¬c.upn = some "")
    (ho : ¬c.oid = some "") :
    (callbackRes fx sess).1 =
      some (SessionState.mk (some (userOfClaims c)) none none none) ∧
    (userOfClaims c).email = c.preferred_username.getD (c.email.getD (c.upn.getD "")) ∧
    (userOfClaims c).oid = c.oid.getD c.sub ∧
    (userOfClaims c).name = c.name.getD "" := by
  refine ⟨?_, ?_, ?_, ?_⟩
  · rw [callbackRes, if_neg (by rw [hready]; exact fun hh => Bool.noConfusion hh), hex]
  · rw [userOfClaims]
    simp only []
    rw [jsOr_eq_getD hu, jsOr_eq_getD he, jsOr_eq_getD hp]
  · rw [userOfClaims]
    simp only []
    rw [jsOr_eq_getD ho]
  · rw [userOfClaims]
    simp only []
    cases hn : c.name with
    | none => rfl
    | some s =>
      rw [jsOr, Option.getD_some]
      by_cases hs : s = ""
      · rw [if_pos hs]
        exact hs.symm
      · rw [if_neg hs]

/-- C2 (code evaluation at the failing input): when the callback token
exchange throws while the session still holds the pending nonce and state,
the handler answers the generic 500 text but returns the session unchanged,
with `oidcNonce` and `oidcState` still present — the catch block of
server.js lines 154-157 never deletes them, contrary to the specified
clear-on-failure behavior. -/
theorem c2_failed_callback_keeps_pending :
    gateway (Config.mk "tenant1" "https://cipp.example.com" "")
      (OidcFx.mk true "n1" "s1" "https://auth.example" (Except.error "invalid state"))
      (Request.mk "GET" "/auth/callback" []) (Query.mk none none none)
      (some (SessionState.mk none (some "n1") (some "s1") (some "/t"))) =
      Outcome.respond (some (SessionState.mk none (some "n1") (some "s1") (some "/t")))
        (textResp 500 "Authentication failed. Please try again.") ∧
    (SessionState.mk none (some "n1") (some "s1") (some "/t")).oidcNonce = some "n1" ∧
    (SessionState.mk none (some "n1") (some "s1") (some "/t")).oidcState = some "s1" := by
  refine ⟨?_, rfl, rfl⟩
  rw [gateway]
  simp only []
  rw [if_neg (by decide), if_neg (by decide), if_neg (by decide), if_pos (by decide),
    callbackRes, if_neg (by decide)]

/-- C4: an authenticated `/api` request is forwarded with exactly the three
injected identity headers: the principal header holds a base64 string that
decodes to the JSON of `buildClientPrincipal` of the session user — provider
`aad`, userId the oid, userDetails the email, roles starting with
`authenticated` then `anonymous` — the name header holds the email, the idp
header holds `aad`, and every other header is exactly as after the strip. -/
theorem c4_authenticated_api_injection (cfg : Config) (fx : OidcFx) (m url k : String)
    (h : Headers) (q : Query) (sess : Option SessionState) (u : AuthUser)
    (hapi : apiMatch (urlPath url) = true)
    (husr : sessionUser sess = some u)
    (hk : ¬(k = "x-ms-client-principal" ∨ k = "x-ms-client-principal-name" ∨
      k = "x-ms-client-principal-idp")) :
    gateway cfg fx (Request.mk m url h) q sess =
      Outcome.forward sess (apiForwardUrl url)
        (injectSwaHeaders cfg.defaultAdminUpn u (stripSwaHeaders h)) ∧
    hdrGet "x-ms-client-principal" (injectSwaHeaders cfg.defaultAdminUpn u (stripSwaHeaders h)) =
      some (principalB64 cfg.defaultAdminUpn u) ∧
    base64Decode (principalB64 cfg.defaultAdminUpn u).data =
      strBytes (Json.stringify (Principal.toJson (corePrincipal cfg.defaultAdminUpn u))) ∧
    buildClientPrincipal cfg.defaultAdminUpn (some u) = some (corePrincipal cfg.defaultAdminUpn u) ∧
    hdrGet "x-ms-client-principal-name" (injectSwaHeaders cfg.defaultAdminUpn u (stripSwaHeaders h)) =
      some u.email ∧
    hdrGet "x-ms-client-principal-idp" (injectSwaHeaders cfg.defaultAdminUpn u (stripSwaHeaders h)) =
      some "aad" ∧
    hdrGet k (injectSwaHeaders cfg.defaultAdminUpn u (stripSwaHeaders h)) =
      hdrGet k (stripSwaHeaders h) ∧
    (corePrincipal cfg.defaultAdminUpn u).identityProvider = "aad" ∧
    (corePrincipal cfg.defaultAdminUpn u).userId = u.oid ∧
    (corePrincipal cfg.defaultAdminUpn u).userDetails = u.email ∧
    (∃ rest, (corePrincipal cfg.defaultAdminUpn u).userRoles =
      "authenticated" :: "anonymous" :: rest) := by
  have hni : ¬(getLikeMethod m ∧ urlPath url = "/api/me" ∧ sessionUser sess = none) := by
    intro hc
    rw [husr] at hc
    exact Option.noConfusion hc.2.2
  have hg := gateway_api_forward cfg fx m url h q sess hapi hni
  rw [husr] at hg
  rw [show apiHeaders cfg.defaultAdminUpn (some u) h =
    injectSwaHeaders cfg.defaultAdminUpn u (stripSwaHeaders h) from rfl] at hg
  exact ⟨hg, injectSwaHeaders_get_principal _ _ _, principalB64_decodes _ _, rfl,
    injectSwaHeaders_get_name _ _ _, injectSwaHeaders_get_idp _ _ _,
    injectSwaHeaders_get_other _ _ _ _ hk, rfl, rfl, rfl,
    ⟨(if ¬cfg.defaultAdminUpn = "" ∧ jsToLowerCase u.email = cfg.defaultAdminUpn
      then ["admin"] else []), rfl⟩⟩

/-- C9 (counterexample): strip and rewrite do not compose to the identity on
every path under the mount — a request whose url is exactly `/api` is
forwarded as `/api/`, because the Express mount strip leaves an empty
remainder and restores a leading slash before the proxy re-prepends `/api`. -/
theorem c9_counterexample_api_root : ¬apiForwardUrl "/api" = "/api" := by decide

/-- C9 (amended): for every request url beginning with `/api/` — every path
properly under the mount — the Express mount strip composed with the proxy
pathRewrite is the identity, so the backend receives the url exactly as the
gateway received it. -/
theorem c9_amended_forward_url_identity (url : String)
    (hp : jsStartsWith url "/api/" = true) :
    apiForwardUrl url = url := by
  cases url with
  | mk l =>
    rw [jsStartsWith] at hp
    rw [show "/api/".data = ['/', 'a', 'p', 'i', '/'] from rfl] at hp
    obtain ⟨t, ht⟩ := isPrefixOf_iff_exists.mp hp
    have ht' : l = ['/', 'a', 'p', 'i', '/'] ++ t := ht
    subst ht'
    rw [apiForwardUrl]
    simp only [expressStripApi]
    rw [show List.drop 4 (['/', 'a', 'p', 'i', '/'] ++ t) = '/' :: t from rfl]
    have hc : jsStartsWith (String.mk ('/' :: t)) "/" = true := by
      rw [jsStartsWith]
      rw [show "/".data = ['/'] from rfl]
      rw [show (String.mk ('/' :: t)).data = '/' :: t from rfl]
      simp [List.isPrefixOf]
    rw [if_pos hc, apiPathRewrite]
    rfl

theorem c1_witness :
    apiMatch (urlPath "/api/ListTenants") = true ∧
    hdrGet "x-ms-client-principal" [] = none ∧
    forwardedIdHeaders (gateway (Config.mk "t1" "https://cipp.example.com" "")
      (OidcFx.mk true "n" "s" "a" (Except.error "e"))
      (Request.mk "POST" "/api/ListTenants" [("x-ms-client-principal", "evil")])
      (Query.mk none none none) none) =
    forwardedIdHeaders (gateway (Config.mk "t1" "https://cipp.example.com" "")
      (OidcFx.mk true "n" "s" "a" (Except.error "e"))
      (Request.mk "POST" "/api/ListTenants" [])
      (Query.mk none none none) none) := by
  have hmain := c1_api_identity_headers_stripped
    (Config.mk "t1" "https://cipp.example.com" "")
    (OidcFx.mk true "n" "s" "a" (Except.error "e"))
    "POST" "/api/ListTenants"
    [("x-ms-client-principal", "forged")] [("x-ms-client-principal", "evil")] []
    (Query.mk none none none) none []
    (by decide) rfl (by decide)
  exact ⟨by decide, hmain.1, hmain.2.2.2⟩

theorem c3_witness :
    ("admin" ∈ (corePrincipal (loadAdminUpn (some "Admin@Contoso.com"))
        (AuthUser.mk "o" "ADMIN@CONTOSO.COM" "n")).userRoles ↔
      (¬loadAdminUpn (some "Admin@Contoso.com") = "" ∧
        jsToLowerCase "ADMIN@CONTOSO.COM" = loadAdminUpn (some "Admin@Contoso.com"))) ∧
    ¬"admin" ∈ (corePrincipal (loadAdminUpn none) (AuthUser.mk "o" "" "n")).userRoles := by
  have hmain := c3_admin_role_iff (some "Admin@Contoso.com") (AuthUser.mk "o" "ADMIN@CONTOSO.COM" "n")
  have hnone := c3_admin_role_iff none (AuthUser.mk "o" "" "n")
  exact ⟨hmain.1, hnone.2.1⟩

theorem c4_witness :
    sessionUser (some (SessionState.mk
      (some (AuthUser.mk "oid-1" "Admin@Contoso.COM" "Admin")) none none none)) =
      some (AuthUser.mk "oid-1" "Admin@Contoso.COM" "Admin") ∧
    hdrGet "x-ms-client-principal"
      (injectSwaHeaders "admin@contoso.com" (AuthUser.mk "oid-1" "Admin@Contoso.COM" "Admin")
        (stripSwaHeaders [("x-ms-client-principal", "spoof")])) =
      some (principalB64 "admin@contoso.com" (AuthUser.mk "oid-1" "Admin@Contoso.COM" "Admin")) ∧
    base64Decode (principalB64 "admin@contoso.com"
        (AuthUser.mk "oid-1" "Admin@Contoso.COM" "Admin")).data =
      strBytes (Json.stringify (Principal.toJson
        (corePrincipal "admin@contoso.com" (AuthUser.mk "oid-1" "Admin@Contoso.COM" "Admin")))) := by
  have hmain := c4_authenticated_api_injection
    (Config.mk "t1" "https://cipp.example.com" "admin@contoso.com")
    (OidcFx.mk true "n" "s" "a" (Except.error "e"))
    "GET" "/api/ListUsers" "content-type" [("x-ms-client-principal", "spoof")]
    (Query.mk none none none)
    (some (SessionState.mk (some (AuthUser.mk "oid-1" "Admin@Contoso.COM" "Admin")) none none none))
    (AuthUser.mk "oid-1" "Admin@Contoso.COM" "Admin")
    (by decide) rfl (by decide)
  exact ⟨rfl, hmain.2.1, hmain.2.2.1⟩

theorem c5_witness :
    sessionUser (none : Option SessionState) = none ∧
    gateway (Config.mk "t1" "https://cipp.example.com" "")
      (OidcFx.mk true "n" "s" "a" (Except.error "e"))
      (Request.mk "GET" "/api/me" []) (Query.mk none none none) none =
      Outcome.respond none (jsonResp (Json.jobj [("clientPrincipal", Json.null)])) := by
  have hmain := c5_unauthenticated_me_endpoints
    (Config.mk "t1" "https://cipp.example.com" "")
    (OidcFx.mk true "n" "s" "a" (Except.error "e"))
    (Query.mk none none none) none [] rfl
  exact ⟨rfl, hmain.2.1⟩

theorem c6_witness :
    jsStartsWith "/home" "/" = true ∧
    fullLogoutRedirect (Config.mk "t1" "https://cipp.example.com" "")
      (Query.mk none (some "/home") none) = "https://cipp.example.com" ++ "/home" ∧
    gateway (Config.mk "t1" "https://cipp.example.com" "")
      (OidcFx.mk true "n" "s" "a" (Except.error "e"))
      (Request.mk "GET" "/.auth/logout" []) (Query.mk none (some "/home") none) none =
      Outcome.respond none (redirectResp (logoutUrl (Config.mk "t1" "https://cipp.example.com" "")
        (fullLogoutRedirect (Config.mk "t1" "https://cipp.example.com" "")
          (Query.mk none (some "/home") none)))) := by
  have hmain := c6_logout_destroys_and_redirects
    (Config.mk "t1" "https://cipp.example.com" "")
    (OidcFx.mk true "n" "s" "a" (Except.error "e"))
    (Query.mk none (some "/home") none) none [] "/home" rfl (by decide)
  exact ⟨by decide, hmain.2.2.2.1, hmain.1⟩

theorem c7_witness :
    (OidcFx.mk false "n" "s" "a" (Except.error "e")).ready = false ∧
    gateway (Config.mk "t1" "https://cipp.example.com" "")
      (OidcFx.mk false "n" "s" "a" (Except.error "e"))
      (Request.mk "GET" "/.auth/login/aad" []) (Query.mk none none none) none =
      Outcome.respond none (textResp 503 "Auth service not ready") ∧
    healthRes false = jsonResp (Json.jobj [("status", Json.jstr "ok"), ("oidc", Json.jbool false)]) := by
  have hmain := c7_degraded_mode_behavior
    (Config.mk "t1" "https://cipp.example.com" "")
    (OidcFx.mk false "n" "s" "a" (Except.error "e"))
    (Query.mk none none none) none []
    "POST" "/api/Version" "GET" "/assets/app.css" []
    rfl (by decide) (by decide) (by decide)
    ⟨by decide, by decide, by decide, by decide, by decide⟩
  exact ⟨rfl, hmain.1, hmain.2.2.2.1⟩

theorem c8_witness :
    ¬(some "pref@x.com" : Option String) = some "" ∧
    (userOfClaims (OidcClaims.mk (some "o1") "sub1" (some "pref@x.com")
      (some "em@x.com") none (some "Person"))).email = "pref@x.com" ∧
    (userOfClaims (OidcClaims.mk (some "o1") "sub1" (some "pref@x.com")
      (some "em@x.com") none (some "Person"))).oid = "o1" := by
  have hmain := c8_claim_fallback_precedence
    (OidcFx.mk true "n" "s" "a" (Except.ok (OidcClaims.mk (some "o1") "sub1"
      (some "pref@x.com") (some "em@x.com") none (some "Person"))))
    (some emptySession)
    (OidcClaims.mk (some "o1") "sub1" (some "pref@x.com") (some "em@x.com") none (some "Person"))
    rfl rfl (by decide) (by decide) (by decide) (by decide)
  exact ⟨by decide, hmain.2.1.trans (by decide), hmain.2.2.1.trans (by decide)⟩

theorem c9_witness :
    jsStartsWith "/api/ListUsers?a=1" "/api/" = true ∧
    apiForwardUrl "/api/ListUsers?a=1" = "/api/ListUsers?a=1" :=
  ⟨by decide, c9_amended_forward_url_identity "/api/ListUsers?a=1" (by decide)⟩

theorem c10_witness :
    ¬getLikeMethod "POST" ∧
    gateway (Config.mk "t1" "https://cipp.example.com" "")
      (OidcFx.mk true "n" "s" "a" (Except.error "e"))
      (Request.mk "POST" "/api/me" [("x-ms-client-principal", "spoof")])
      (Query.mk none none none) none =
      Outcome.forward none (apiForwardUrl "/api/me")
        (stripSwaHeaders [("x-ms-client-principal", "spoof")]) := by
  have hmain := c10_api_me_non_get_head_forwarded
    (Config.mk "t1" "https://cipp.example.com" "")
    (OidcFx.mk true "n" "s" "a" (Except.error "e"))
    "POST" [("x-ms-client-principal", "spoof")] (Query.mk none none none) none
    (by decide) rfl
  exact ⟨by decide, hmain.1⟩

end AuthProxy
